import Mathlib

/-!
Verification of the C.A.F.E. Home Assistant panel-registrar code
(`custom_components/cafe/panel.py` and
`custom_components/flow_automator/__init__.py`) against its
natural-language specification.

The host application's registry is modelled as explicit state: a list of
static-path registrations and an association list of panel entries keyed
by their `frontend_url_path`.  The host's own registry operations
(`panel_custom.async_register_panel` / `frontend.async_register_built_in_panel`
creating an entry, `frontend.async_remove_panel` removing one) are not part
of this repository and are modelled from the spec's description of the host
plugin API.  Everything else is translated directly from the Python source.
-/

/-- A panel-creation request as passed to the host plugin API:
web-component or iframe component name, `frontend_url_path`, the module or
iframe URL, sidebar title, sidebar icon, and the admin-only flag
(`panel.py` lines 49-59, `__init__.py` lines 33-43). -/
structure PanelRequest where
  component_name : String
  frontend_url_path : String
  url : String
  sidebar_title : String
  sidebar_icon : String
  require_admin : Bool
deriving DecidableEq

/-- Host-owned registries touched by the registrar: the static-path table
and the panel registry (an association list keyed by `frontend_url_path`,
mirroring the host's `frontend_panels` dict). -/
structure HassState where
  staticPaths : List (String × String)
  panels : List (String × PanelRequest)
deriving DecidableEq

/-- Modelled from the spec: the host plugin API's panel-creation call
(`register_panel`).  Creating an entry whose `frontend_url_path` already
exists is a HostAPIError that propagates to the caller; otherwise the new
record is stored under its `frontend_url_path` key. -/
def hostRegisterPanel (panels : List (String × PanelRequest)) (req : PanelRequest) :
    Except String (List (String × PanelRequest)) :=
  if panels.any (fun p => p.1 == req.frontend_url_path) then
    Except.error "Overwriting panel"
  else
    Except.ok ((req.frontend_url_path, req) :: panels)

/-- Modelled from the spec: the host plugin API's `remove_panel(domain)`.
Removing a non-existent panel is not an error; the entry for the domain,
if any, is dropped. -/
def hostRemovePanel (panels : List (String × PanelRequest)) (d : String) :
    Except String (List (String × PanelRequest)) :=
  Except.ok (panels.eraseP (fun p => p.1 == d))

/-- The `www` directory exposed at the cafe static prefix
(`str(www_path)`, `panel.py` line 21). -/
def cafeWww : String := "custom_components/cafe/www"

/-- The static URL prefix for the cafe bundle (`panel.py` line 25). -/
def CAFE_STATIC : String := "/cafe_static"

/-- Glob match for `index-*.js` (`panel.py` line 29): the filename starts
with `index-` and ends with `.js`. -/
def matchesIndexJs (f : String) : Bool :=
  "index-".data.isPrefixOf f.data && ".js".data.isSuffixOf f.data

/-- The source-map exclusion test `f.name.endswith('.map')`
(`panel.py` line 29). -/
def isMapFile (f : String) : Bool :=
  ".map".data.isSuffixOf f.data

/-- The asset discovery of `panel.py` line 29: all files of the assets
directory matching `index-*.js` that are not `.map` files, in enumeration
order. -/
def jsFiles (assets : List String) : List String :=
  (assets.filter matchesIndexJs).filter (fun f => !(isMapFile f))

/-- The cache-busting token `int(time.time())` (`panel.py` line 38):
Python `int()` truncates the float toward zero. -/
def cacheBust (t : ℚ) : ℤ :=
  if 0 ≤ t then ⌊t⌋ else ⌈t⌉

/-- The module URL of `panel.py` line 39:
`f"/cafe_static/assets/{js_filename}?v={cache_bust}"`. -/
def module_url (fn : String) (t : ℚ) : String :=
  CAFE_STATIC ++ "/assets/" ++ fn ++ "?v=" ++ toString (cacheBust t)

/-- The panel-creation request issued by `async_register_panel`
(`panel.py` lines 49-59): webcomponent name `f"{DOMAIN}-panel"`,
`frontend_url_path=DOMAIN`, the computed module URL, title, icon and
`require_admin=True`.  `DOMAIN`, `PANEL_TITLE` and `PANEL_ICON` come from
`const.py` and are passed as parameters. -/
def cafeRequest (domain title icon fn : String) (t : ℚ) : PanelRequest :=
  { component_name := domain ++ "-panel"
    frontend_url_path := domain
    url := module_url fn t
    sidebar_title := title
    sidebar_icon := icon
    require_admin := true }

/-- The pre-registration removal `hass.data.get("frontend_panels", {}).pop(DOMAIN, None)`
(`panel.py` line 43): drop the entry keyed by the domain, if any. -/
def popDomain (panels : List (String × PanelRequest)) (d : String) :
    List (String × PanelRequest) :=
  panels.eraseP (fun p => p.1 == d)

/-- The `try: ... except: pass` wrapper of `panel.py` lines 42-46: the
removal step runs, and when it raises the error is swallowed and the
registry is left as it was. -/
def applyRemoval
    (removal : List (String × PanelRequest) → Except Unit (List (String × PanelRequest)))
    (panels : List (String × PanelRequest)) : List (String × PanelRequest) :=
  match removal panels with
  | Except.ok p => p
  | Except.error _ => panels

/-- `async_register_panel` of `panel.py` lines 18-61, parameterised over
the removal step so the bare-except swallowing can be stated for every
removal behaviour.  Steps: register the static path (lines 24-26); discover
the bundle scripts (line 29); if none, log and return without issuing a
panel-creation request (lines 30-33); otherwise build the module URL from
the first match (lines 35-39), run the guarded removal (lines 42-46) and
issue the panel-creation request (lines 49-59).  The returned option is the
creation request issued, `none` when registration aborted. -/
def cafeRegisterWith
    (removal : List (String × PanelRequest) → Except Unit (List (String × PanelRequest)))
    (domain title icon : String) (assets : List String) (t : ℚ) (s : HassState) :
    Except String (HassState × Option PanelRequest) :=
  let s1 : HassState :=
    { s with staticPaths := s.staticPaths ++ [(CAFE_STATIC, cafeWww)] }
  match jsFiles assets with
  | [] => Except.ok (s1, none)
  | fn :: _ =>
    let req := cafeRequest domain title icon fn t
    let panels1 := applyRemoval removal s1.panels
    match hostRegisterPanel panels1 req with
    | Except.error e => Except.error e
    | Except.ok p => Except.ok ({ s1 with panels := p }, some req)

/-- `async_register_panel` with its actual removal step (the dict `pop`
with default, which never raises). -/
def cafeRegisterPanel (domain title icon : String) (assets : List String)
    (t : ℚ) (s : HassState) : Except String (HassState × Option PanelRequest) :=
  cafeRegisterWith (fun p => Except.ok (popDomain p domain)) domain title icon assets t s

/-- `async_unregister_panel` of `panel.py` lines 64-67: delegate to the
host's `remove_panel` for the domain. -/
def cafeUnregisterPanel (domain : String) (panels : List (String × PanelRequest)) :
    Except String (List (String × PanelRequest)) :=
  hostRemovePanel panels domain

namespace FlowAutomator

/-- `DOMAIN` of `__init__.py` line 13. -/
def DOMAIN : String := "flow_automator"

/-- `PANEL_TITLE` of `__init__.py` line 15. -/
def PANEL_TITLE : String := "C.A.F.E."

/-- `PANEL_ICON` of `__init__.py` line 16. -/
def PANEL_ICON : String := "mdi:graph"

/-- The `www` directory exposed at the flow_automator static prefix
(`__init__.py` lines 23 and 28). -/
def flowWww : String := "custom_components/flow_automator/www"

/-- The iframe panel-creation request issued by `async_setup`
(`__init__.py` lines 33-43).  It takes the assets directory contents as
input and, like the source, ignores them: component `iframe`,
`frontend_url_path="flow-automator"`, the fixed `index.html` URL,
title, icon and `require_admin=True`. -/
def flowRequest (assets : List String) : PanelRequest :=
  { component_name := "iframe"
    frontend_url_path := "flow-automator"
    url := "/flow_automator_static/index.html"
    sidebar_title := PANEL_TITLE
    sidebar_icon := PANEL_ICON
    require_admin := true }

/-- `async_setup` of `__init__.py` lines 19-47: register the static path,
issue the iframe panel-creation request, return `True`. -/
def async_setup (assets : List String) (s : HassState) :
    Except String (HassState × PanelRequest × Bool) :=
  let s1 : HassState :=
    { s with staticPaths := s.staticPaths ++ [("/flow_automator_static", flowWww)] }
  match hostRegisterPanel s1.panels (flowRequest assets) with
  | Except.error e => Except.error e
  | Except.ok p => Except.ok ({ s1 with panels := p }, flowRequest assets, true)

/-- `async_setup_entry` of `__init__.py` lines 50-52: returns `True`
unconditionally, touching nothing. -/
def async_setup_entry (s : HassState) : Bool × HassState := (true, s)

/-- `async_unload_entry` of `__init__.py` lines 55-57: returns `True`
unconditionally, touching nothing. -/
def async_unload_entry (s : HassState) : Bool × HassState := (true, s)

end FlowAutomator

/-! ### Helper lemmas -/

/-- After popping the domain from a registry whose keys are pairwise
distinct, no entry with that key remains. -/
lemma eraseP_key_ne (l : List (String × PanelRequest)) (d : String)
    (h : (l.map Prod.fst).Nodup) :
    ∀ p ∈ l.eraseP (fun p => p.1 == d), p.1 ≠ d := by
  induction l with
  | nil => simp
  | cons a l ih =>
    rw [List.map_cons, List.nodup_cons] at h
    by_cases ha : a.1 = d
    · rw [List.eraseP_cons_of_pos (by simp [ha])]
      intro p hp hpd
      exact h.1 (by rw [ha, ← hpd]; exact List.mem_map_of_mem Prod.fst hp)
    · rw [List.eraseP_cons_of_neg (by simp [ha])]
      intro p hp
      rcases List.mem_cons.mp hp with h1 | h1
      · rw [h1]; exact ha
      · exact ih h.2 p h1

/-- Popping preserves pairwise-distinct keys. -/
lemma keys_nodup_eraseP (l : List (String × PanelRequest))
    (q : String × PanelRequest → Bool) (h : (l.map Prod.fst).Nodup) :
    ((l.eraseP q).map Prod.fst).Nodup :=
  h.sublist ((List.eraseP_sublist l).map Prod.fst)

/-- When asset discovery finds at least one bundle script and the registry
keys are pairwise distinct, `async_register_panel` succeeds: the static
path is appended and the creation request for the first match is stored
after the pop. -/
lemma register_success (domain title icon : String) (assets : List String) (t : ℚ)
    (s : HassState) (fn : String) (rest : List String)
    (h : jsFiles assets = fn :: rest)
    (hnd : (s.panels.map Prod.fst).Nodup) :
    cafeRegisterPanel domain title icon assets t s =
      Except.ok
        (⟨s.staticPaths ++ [(CAFE_STATIC, cafeWww)],
          (domain, cafeRequest domain title icon fn t) :: popDomain s.panels domain⟩,
         some (cafeRequest domain title icon fn t)) := by
  have hany : (popDomain s.panels domain).any (fun p => p.1 == domain) = false := by
    rw [List.any_eq_false]
    intro p hp
    simpa using eraseP_key_ne s.panels domain hnd p hp
  unfold cafeRegisterPanel cafeRegisterWith
  rw [h]
  simp only [applyRemoval, hostRegisterPanel, popDomain]
  simp only [cafeRequest] at hany ⊢
  simp only [popDomain] at hany
  rw [hany]
  rfl

/-! ### Claim theorems -/

/-- C1: when the assets directory contains exactly one file matching
`index-*.js` (and not `.map`), `async_register_panel` succeeds and the
module URL passed to the panel-creation call is
`/cafe_static/assets/<filename>` followed only by the cache-busting query
parameter. -/
theorem spec_c1 (domain title icon : String) (assets : List String) (t : ℚ)
    (s : HassState) (fn : String)
    (h : jsFiles assets = [fn])
    (hnd : (s.panels.map Prod.fst).Nodup) :
    ∃ s', cafeRegisterPanel domain title icon assets t s =
        Except.ok (s', some (cafeRequest domain title icon fn t)) ∧
      (cafeRequest domain title icon fn t).url =
        CAFE_STATIC ++ "/assets/" ++ fn ++ "?v=" ++ toString (cacheBust t) :=
  ⟨_, register_success domain title icon assets t s fn [] h hnd, rfl⟩

/-- Witness for C1 at a one-file assets directory and an empty registry. -/
theorem spec_c1_witness :
    ∃ s', cafeRegisterPanel "cafe" "C.A.F.E." "mdi:coffee" ["index-abc123.js"] 7 ⟨[], []⟩ =
        Except.ok (s', some (cafeRequest "cafe" "C.A.F.E." "mdi:coffee" "index-abc123.js" 7)) ∧
      (cafeRequest "cafe" "C.A.F.E." "mdi:coffee" "index-abc123.js" 7).url =
        CAFE_STATIC ++ "/assets/" ++ "index-abc123.js" ++ "?v=" ++ toString (cacheBust 7) :=
  spec_c1 "cafe" "C.A.F.E." "mdi:coffee" ["index-abc123.js"] 7 ⟨[], []⟩ "index-abc123.js"
    (by decide) (by simp)

/-- C2: when the assets directory contains no file matching `index-*.js`,
`async_register_panel` returns without raising, without issuing a
panel-creation request, and without touching the panel registry. -/
theorem spec_c2 (domain title icon : String) (assets : List String) (t : ℚ)
    (s : HassState) (h : jsFiles assets = []) :
    cafeRegisterPanel domain title icon assets t s =
      Except.ok
        ({ s with staticPaths := s.staticPaths ++ [(CAFE_STATIC, cafeWww)] }, none) := by
  unfold cafeRegisterPanel cafeRegisterWith
  rw [h]

/-- Witness for C2 at an assets directory holding only a stylesheet and a
source map. -/
theorem spec_c2_witness :
    cafeRegisterPanel "cafe" "C.A.F.E." "mdi:coffee" ["main.css", "index-a1b2.js.map"] 7 ⟨[], []⟩ =
      Except.ok (⟨[] ++ [(CAFE_STATIC, cafeWww)], []⟩, none) :=
  spec_c2 "cafe" "C.A.F.E." "mdi:coffee" ["main.css", "index-a1b2.js.map"] 7 ⟨[], []⟩ (by decide)

/-- C8: the cache-busting token is a non-negative integer and strictly
increases between two registrations at least one second apart. -/
theorem spec_c8 (t1 t2 : ℚ) (h0 : 0 ≤ t1) (h1 : t1 + 1 ≤ t2) :
    0 ≤ cacheBust t1 ∧ cacheBust t1 < cacheBust t2 := by
  have h2 : (0:ℚ) ≤ t2 := le_trans (le_trans h0 (by linarith)) (le_refl t2)
  unfold cacheBust
  rw [if_pos h0, if_pos h2]
  constructor
  · exact Int.floor_nonneg.mpr h0
  · have : ⌊t1⌋ + 1 ≤ ⌊t2⌋ := by
      rw [← Int.floor_add_one t1]
      exact Int.floor_le_floor h1
    omega

/-- Witness for C8 at times 3/2 and 7/2 seconds. -/
theorem spec_c8_witness : 0 ≤ cacheBust (3/2) ∧ cacheBust (3/2) < cacheBust (7/2) :=
  spec_c8 (3/2) (7/2) (by norm_num) (by norm_num)

/-- C9: the static path is registered before asset discovery, so even when
discovery finds nothing and registration aborts, the static-path entry is
in place while the panel registry is untouched. -/
theorem spec_c9 (domain title icon : String) (assets : List String) (t : ℚ)
    (s : HassState) (h : jsFiles assets = []) :
    ∃ s', cafeRegisterPanel domain title icon assets t s = Except.ok (s', none) ∧
      (CAFE_STATIC, cafeWww) ∈ s'.staticPaths ∧ s'.panels = s.panels := by
  refine ⟨{ s with staticPaths := s.staticPaths ++ [(CAFE_STATIC, cafeWww)] }, ?_, ?_, rfl⟩
  · unfold cafeRegisterPanel cafeRegisterWith
    rw [h]
  · simp

/-- Witness for C9 at an assets directory holding a dash-less `index.js`
and a state that already has another static path. -/
theorem spec_c9_witness :
    ∃ s', cafeRegisterPanel "cafe" "C.A.F.E." "mdi:coffee" ["index.js"] 11
        ⟨[("/other_static", "elsewhere")], []⟩ = Except.ok (s', none) ∧
      (CAFE_STATIC, cafeWww) ∈ s'.staticPaths ∧
      s'.panels = (⟨[("/other_static", "elsewhere")], []⟩ : HassState).panels :=
  spec_c9 "cafe" "C.A.F.E." "mdi:coffee" ["index.js"] 11
    ⟨[("/other_static", "elsewhere")], []⟩ (by decide)

/-- C3: two successive registrations for the same domain leave exactly one
panel registry entry for that domain, because the pop removes the existing
entry before the new one is created. -/
theorem spec_c3 (domain title icon : String) (a1 a2 : List String) (t1 t2 : ℚ)
    (s : HassState) (f1 f2 : String) (r1 r2 : List String)
    (h1 : jsFiles a1 = f1 :: r1) (h2 : jsFiles a2 = f2 :: r2)
    (hnd : (s.panels.map Prod.fst).Nodup) :
    ∃ s1 s2,
      cafeRegisterPanel domain title icon a1 t1 s =
        Except.ok (s1, some (cafeRequest domain title icon f1 t1)) ∧
      cafeRegisterPanel domain title icon a2 t2 s1 =
        Except.ok (s2, some (cafeRequest domain title icon f2 t2)) ∧
      s2.panels.countP (fun p => p.1 == domain) = 1 := by
  have hkey0 : ∀ p ∈ popDomain s.panels domain, p.1 ≠ domain :=
    eraseP_key_ne s.panels domain hnd
  have hnd1 : ((((domain, cafeRequest domain title icon f1 t1) ::
      popDomain s.panels domain) : List (String × PanelRequest)).map Prod.fst).Nodup := by
    rw [List.map_cons, List.nodup_cons]
    refine ⟨?_, keys_nodup_eraseP s.panels _ hnd⟩
    intro hmem
    rcases List.mem_map.mp hmem with ⟨p, hp, hpe⟩
    exact hkey0 p hp hpe
  refine ⟨_, _, register_success domain title icon a1 t1 s f1 r1 h1 hnd,
    register_success domain title icon a2 t2 _ f2 r2 h2 hnd1, ?_⟩
  show (((domain, cafeRequest domain title icon f2 t2) ::
      popDomain ((domain, cafeRequest domain title icon f1 t1) ::
        popDomain s.panels domain) domain) : List (String × PanelRequest)).countP
      (fun p => p.1 == domain) = 1
  unfold popDomain
  rw [List.eraseP_cons_of_pos (by simp)]
  have hz : (s.panels.eraseP (fun p => p.1 == domain)).countP (fun p => p.1 == domain) = 0 := by
    rw [List.countP_eq_zero]
    intro p hp
    simpa using hkey0 p hp
  simp [hz]

/-- Witness for C3: registering twice from an empty registry. -/
theorem spec_c3_witness :
    ∃ s1 s2,
      cafeRegisterPanel "cafe" "C.A.F.E." "mdi:coffee" ["index-one.js"] 1 ⟨[], []⟩ =
        Except.ok (s1, some (cafeRequest "cafe" "C.A.F.E." "mdi:coffee" "index-one.js" 1)) ∧
      cafeRegisterPanel "cafe" "C.A.F.E." "mdi:coffee" ["index-two.js"] 2 s1 =
        Except.ok (s2, some (cafeRequest "cafe" "C.A.F.E." "mdi:coffee" "index-two.js" 2)) ∧
      s2.panels.countP (fun p => p.1 == "cafe") = 1 :=
  spec_c3 "cafe" "C.A.F.E." "mdi:coffee" ["index-one.js"] ["index-two.js"] 1 2 ⟨[], []⟩
    "index-one.js" "index-two.js" [] [] (by decide) (by decide) (by simp)

/-- C4 counterexample: the iframe registrar does not pass
`frontend_url_path` equal to the domain identifier: it passes the
hyphenated `flow-automator` while `DOMAIN` is `flow_automator`. -/
theorem spec_c4_counterexample :
    (FlowAutomator.flowRequest []).frontend_url_path ≠ FlowAutomator.DOMAIN := by
  decide

/-- C4 (amended): both registrars pass `require_admin = true`; the
CUSTOM_ELEMENT registrar passes `frontend_url_path` equal to the domain
identifier, while the IFRAME registrar passes the fixed path
`flow-automator`, which differs from its domain identifier
`flow_automator`. -/
theorem spec_c4 (domain title icon fn : String) (t : ℚ) (assets : List String) :
    (cafeRequest domain title icon fn t).frontend_url_path = domain ∧
    (cafeRequest domain title icon fn t).require_admin = true ∧
    (FlowAutomator.flowRequest assets).require_admin = true ∧
    (FlowAutomator.flowRequest assets).frontend_url_path = "flow-automator" ∧
    "flow-automator" ≠ FlowAutomator.DOMAIN :=
  ⟨rfl, rfl, rfl, rfl, by decide⟩

/-- C5: the pre-registration removal is advisory.  For every removal
behaviour (including one that raises), once a bundle script is found the
registration's outcome is exactly the panel-creation call's outcome, so
the creation request is issued regardless; and a removal step that raises
behaves identically to one that does nothing. -/
theorem spec_c5
    (removal : List (String × PanelRequest) → Except Unit (List (String × PanelRequest)))
    (domain title icon : String) (assets : List String) (t : ℚ) (s : HassState)
    (fn : String) (rest : List String) (h : jsFiles assets = fn :: rest) :
    (cafeRegisterWith removal domain title icon assets t s =
      (hostRegisterPanel (applyRemoval removal s.panels)
          (cafeRequest domain title icon fn t)).map
        (fun p => ((⟨s.staticPaths ++ [(CAFE_STATIC, cafeWww)], p⟩ : HassState),
          some (cafeRequest domain title icon fn t)))) ∧
    cafeRegisterWith (fun ps => Except.error ()) domain title icon assets t s =
      cafeRegisterWith (fun ps => Except.ok ps) domain title icon assets t s := by
  constructor
  · unfold cafeRegisterWith
    rw [h]
    dsimp only
    cases hres : hostRegisterPanel (applyRemoval removal s.panels)
        (cafeRequest domain title icon fn t) with
    | error e => rfl
    | ok p => rfl
  · rfl

/-- Witness for C5: a removal step that always raises still issues the
panel-creation request. -/
theorem spec_c5_witness :
    (cafeRegisterWith (fun ps => Except.error ())
        "cafe" "C.A.F.E." "mdi:coffee" ["index-feed.js"] 3 ⟨[], []⟩ =
      (hostRegisterPanel
          (applyRemoval (fun ps => Except.error ()) ((⟨[], []⟩ : HassState)).panels)
          (cafeRequest "cafe" "C.A.F.E." "mdi:coffee" "index-feed.js" 3)).map
        (fun p => ((⟨(⟨[], []⟩ : HassState).staticPaths ++ [(CAFE_STATIC, cafeWww)], p⟩ : HassState),
          some (cafeRequest "cafe" "C.A.F.E." "mdi:coffee" "index-feed.js" 3)))) ∧
    cafeRegisterWith (fun ps => Except.error ())
        "cafe" "C.A.F.E." "mdi:coffee" ["index-feed.js"] 3 ⟨[], []⟩ =
      cafeRegisterWith (fun ps => Except.ok ps)
        "cafe" "C.A.F.E." "mdi:coffee" ["index-feed.js"] 3 ⟨[], []⟩ :=
  spec_c5 (fun ps => Except.error ()) "cafe" "C.A.F.E." "mdi:coffee" ["index-feed.js"] 3
    ⟨[], []⟩ "index-feed.js" [] (by decide)

/-- C6: iframe-mode registration always configures the fixed URL
`/flow_automator_static/index.html`, with no cache-busting query
parameter, and behaves identically whatever the assets directory holds. -/
theorem spec_c6 (assets : List String) (s : HassState) :
    (FlowAutomator.flowRequest assets).url = "/flow_automator_static/index.html" ∧
    '?' ∉ (FlowAutomator.flowRequest assets).url.data ∧
    FlowAutomator.async_setup assets s = FlowAutomator.async_setup [] s :=
  ⟨rfl, show '?' ∉ ("/flow_automator_static/index.html" : String).data by decide, rfl⟩

/-- C7: `async_unregister_panel` never raises, also on a registry with no
entry for the domain, in which case the registry is returned unchanged. -/
theorem spec_c7 (domain : String) (panels : List (String × PanelRequest)) :
    ∃ l, cafeUnregisterPanel domain panels = Except.ok l ∧
      ((∀ p ∈ panels, p.1 ≠ domain) → l = panels) := by
  refine ⟨panels.eraseP (fun p => p.1 == domain), rfl, ?_⟩
  intro hall
  exact List.eraseP_of_forall_not (fun a ha => by simpa using hall a ha)

/-- C10: unloading (and setting up) a config entry performs no cleanup:
both hooks return `True` and leave the static-path table and the panel
registry untouched. -/
theorem spec_c10 (s : HassState) :
    FlowAutomator.async_unload_entry s = (true, s) ∧
    FlowAutomator.async_setup_entry s = (true, s) ∧
    (FlowAutomator.async_unload_entry s).2.panels = s.panels ∧
    (FlowAutomator.async_unload_entry s).2.staticPaths = s.staticPaths :=
  ⟨rfl, rfl, rfl, rfl⟩
